import Mathlib

/-!
Shallow embedding of the client of the Shinnamon-Roll/christmasTree
repository: the pieces of `App.jsx`, `GameCanvas.jsx`, `MessageInput`
and `FallingItems` that the verified claims are about.

JavaScript arrays are modelled as `List` over `Option String`
(`none` is a JS hole / `undefined` cell), so that the out-of-bounds
assignment semantics of `arr[i] = v` — which extends the array to
length `i + 1`, filling the gap with holes — is represented faithfully.
-/

namespace PixelTree

/-- Grid dimension constant from `App.jsx`: `const GRID_WIDTH = 100`. -/
def GRID_WIDTH : Nat := 100

/-- Grid dimension constant from `App.jsx`: `const GRID_HEIGHT = 150`. -/
def GRID_HEIGHT : Nat := 150

/-- A JS array cell: `none` models a hole (`undefined`). -/
abbrev JsCell := Option String

/-- JS semantics of `arr[i] = v` on an array of strings:
if `i < arr.length` the cell is replaced; otherwise the array is
extended to length `i + 1`, the gap filled with holes. -/
def jsSet (g : List JsCell) (i : Nat) (v : String) : List JsCell :=
  if i < g.length then g.set i (some v)
  else g ++ List.replicate (i - g.length) (none : JsCell) ++ [some v]

/-- Horizontal placement fraction of a falling item; the JS float is
modelled as a rational. -/
abbrev XPos := ℚ

/-- A falling item as stored in the `fallingItems` state of `App.jsx`:
the payload received from the server plus the client-assigned `id`. -/
structure FallingItem where
  id : Nat
  itemType : String
  content : String
  xPosition : XPos
deriving DecidableEq, Repr

/-- The slice of the `App` component state that `handleServerMessage`
and `addFallingItem` read and write: `grid`, `treeMask`, `onlineCount`,
`isLoading`, `fallingItems` and the `itemIdRef` counter. -/
structure ClientState where
  grid : Option (List JsCell)
  treeMask : Option (List Bool)
  onlineCount : Int
  isLoading : Bool
  fallingItems : List FallingItem
  itemIdRef : Nat
deriving DecidableEq, Repr

/-- An inbound server frame, after JSON decoding (`message.type`
dispatch in `handleServerMessage`). `INITIAL_STATE`'s pixel objects are
already projected to their colors, as `handleServerMessage` does with
`message.payload.grid.map(p => p.color)`. -/
inductive ServerMsg where
  | initialState (gridColors : List String) (treeMask : List Bool) (onlineCount : Int)
  | updatePixel (index : Nat) (color : String)
  | updateCount (count : Int)
  | fallingItem (itemType : String) (content : String) (xPosition : XPos)
  | unknown (t : String)
deriving DecidableEq, Repr

/-- `addFallingItem` from `App.jsx`: increments `itemIdRef` and appends
the item with the fresh id.  The delayed removal it schedules with
`setTimeout` is modelled separately by `removeFallingItem`. -/
def addFallingItem (itemType content : String) (xPosition : XPos)
    (st : ClientState) : ClientState :=
  let id := st.itemIdRef + 1
  { st with
    itemIdRef := id
    fallingItems := st.fallingItems ++ [⟨id, itemType, content, xPosition⟩] }

/-- The callback `addFallingItem` schedules after 10 seconds:
`setFallingItems(prev => prev.filter(i => i.id !== id))`. -/
def removeFallingItem (id : Nat) (st : ClientState) : ClientState :=
  { st with fallingItems := st.fallingItems.filter (fun i => i.id ≠ id) }

/-- `handleServerMessage` from `App.jsx`.  The `UPDATE_PIXEL` branch
copies the previous grid and assigns `newGrid[index] = color` with JS
assignment semantics (`jsSet`); a `null` grid is left untouched. -/
def handleServerMessage (msg : ServerMsg) (st : ClientState) : ClientState :=
  match msg with
  | .initialState gridColors treeMask onlineCount =>
      { st with
        grid := some (gridColors.map some)
        treeMask := some treeMask
        onlineCount := onlineCount
        isLoading := false }
  | .updatePixel index color =>
      { st with grid := st.grid.map (fun g => jsSet g index color) }
  | .updateCount count => { st with onlineCount := count }
  | .fallingItem itemType content xPosition =>
      addFallingItem itemType content xPosition st
  | .unknown _ => st

/-- Length of the client grid, when it is non-null. -/
def gridLen (st : ClientState) : Option Nat := st.grid.map List.length

/-- An outbound client frame (`ws.send` payload). -/
inductive ClientFrame where
  | paint (index : Nat) (color : String)
  | sendMessage (text : List Char)
  | sendImage (data : String)
deriving DecidableEq, Repr

/-- The guard `treeMask && !treeMask[index]` used by `sendPaint`,
`paintPixel` and `handleCanvasClick`: a `null` mask never blocks, and an
out-of-bounds read yields `undefined`, which is falsy, so `!` makes the
guard block. -/
def jsMaskBlocks (treeMask : Option (List Bool)) (index : Nat) : Bool :=
  match treeMask with
  | none => false
  | some mask => !(mask.getD index false)

/-- `sendPaint` from `App.jsx`: returns the boolean result together
with the frame sent to the server (`none` when nothing is sent).  It
reads only the socket state and the tree mask — no timestamp and no
cooldown state. -/
def sendPaint (wsOpen : Bool) (treeMask : Option (List Bool)) (index : Nat)
    (color : String) : Bool × Option ClientFrame :=
  if !wsOpen then (false, none)
  else if jsMaskBlocks treeMask index then (false, none)
  else (true, some (.paint index color))

/-- The action `handleCanvasClick` performs. -/
inductive ClickAction where
  | ignore
  | placeEmoji (x y : Int) (emoji : String)
  | paintCall (index : Nat) (color : String)
deriving DecidableEq, Repr

/-- `handleCanvasClick` from `App.jsx`: null grid is ignored; the index
`y * GRID_WIDTH + x` is range-checked against `[0, GRID_WIDTH * GRID_HEIGHT)`;
mask-blocked indices are ignored; emoji mode places an emoji, otherwise
`sendPaint(index, selectedColor)` is invoked. -/
def handleCanvasClick (grid : Option (List JsCell))
    (treeMask : Option (List Bool)) (isEmojiMode : Bool)
    (selectedEmoji selectedColor : String) (x y : Int) : ClickAction :=
  match grid with
  | none => .ignore
  | some _ =>
    let index : Int := y * (GRID_WIDTH : Int) + x
    if 0 ≤ index ∧ index < (GRID_WIDTH : Int) * (GRID_HEIGHT : Int) then
      if jsMaskBlocks treeMask index.toNat then .ignore
      else if isEmojiMode then .placeEmoji x y selectedEmoji
      else .paintCall index.toNat selectedColor
    else .ignore

/-- The hit record `getPixelFromEvent` returns on success. -/
structure PixelHit where
  pixelX : Int
  pixelY : Int
  index : Int
deriving DecidableEq, Repr

/-- `getPixelFromEvent` from `GameCanvas.jsx`, taking as input the
already floored pixel coordinates `Math.floor(canvasX / PIXEL_SIZE)`
and `Math.floor(canvasY / PIXEL_SIZE)` (the floating-point scaling is
abstracted into these integers): positions outside the
`width × height` range yield `null`. -/
def getPixelFromEvent (width height : Nat) (pixelX pixelY : Int) :
    Option PixelHit :=
  if 0 ≤ pixelX ∧ pixelX < (width : Int) ∧ 0 ≤ pixelY ∧ pixelY < (height : Int) then
    some ⟨pixelX, pixelY, pixelY * (width : Int) + pixelX⟩
  else none

/-- The visible effects of one `paintPixel` call in `GameCanvas.jsx`:
its boolean return value, the updated `lastPaintedPixelRef`, the
optimistic canvas draw (if any) and the `onPixelClick` call (if any). -/
structure PaintPixelResult where
  ret : Bool
  lastPainted : Option Nat
  drew : Option (Int × Int × String)
  clicked : Option (Int × Int)
deriving DecidableEq, Repr

/-- `paintPixel` from `GameCanvas.jsx`: mask-blocked indices and an
index equal to `lastPaintedPixelRef` return `false` with no draw and no
`onPixelClick`; otherwise the ref is updated, the pixel is drawn
optimistically in the selected color and `onPixelClick` is called. -/
def paintPixel (treeMask : Option (List Bool)) (lastPainted : Option Nat)
    (selectedColor : String) (pixelX pixelY : Int) (index : Nat) :
    PaintPixelResult :=
  if jsMaskBlocks treeMask index then
    ⟨false, lastPainted, none, none⟩
  else if lastPainted = some index then
    ⟨false, lastPainted, none, none⟩
  else
    ⟨true, some index, some (pixelX, pixelY, selectedColor),
      some (pixelX, pixelY)⟩

/-- A file as seen by `handleImageSelect`: its byte size and MIME type. -/
structure JsFile where
  size : Nat
  fileType : String
deriving DecidableEq, Repr

/-- Outcome of one `handleImageSelect` call in `MessageInput`. -/
inductive ImageSelectOutcome where
  | noFile
  | alertTooBig
  | alertNotImage
  | accepted
deriving DecidableEq, Repr

/-- JS `s.startsWith(pre)`, as a prefix test on the character lists. -/
def jsStartsWith (s pre : String) : Bool :=
  pre.toList.isPrefixOf s.toList

/-- `handleImageSelect` from `MessageInput`: no file is a no-op; a file
over `100 * 1024` bytes alerts and returns; a file whose type does not
start with `image/` alerts and returns; otherwise the file is read and
its data URL becomes the image preview (`accepted`). -/
def handleImageSelect (file : Option JsFile) : ImageSelectOutcome :=
  match file with
  | none => .noFile
  | some f =>
    if f.size > 100 * 1024 then .alertTooBig
    else if !(jsStartsWith f.fileType "image/") then .alertNotImage
    else .accepted

/-- The whitespace test of JS `String.prototype.trim` (restricted to
the ASCII whitespace characters plus NBSP). -/
def isJsWhitespace (c : Char) : Bool :=
  c = ' ' || c = '\t' || c = '\n' || c = '\r' ||
  c = Char.ofNat 11 || c = Char.ofNat 12 || c = Char.ofNat 160

/-- JS `text.trim()`: strips leading and trailing whitespace. -/
def jsTrim (s : List Char) : List Char :=
  ((s.dropWhile isJsWhitespace).reverse.dropWhile isJsWhitespace).reverse

/-- The action `handleSubmit` of `MessageInput` performs. -/
inductive SubmitAction where
  | sendImage (data : String)
  | sendMessage (text : List Char)
  | nothing
deriving DecidableEq, Repr

/-- `handleSubmit` from `MessageInput`: an image preview, if set, is
sent as an image; otherwise a message is sent iff `text.trim()` is
non-empty (truthy), with the trimmed text as payload. -/
def handleSubmit (text : List Char) (imagePreview : Option String) :
    SubmitAction :=
  match imagePreview with
  | some img => .sendImage img
  | none =>
    if jsTrim text ≠ [] then .sendMessage (jsTrim text) else .nothing

/-- `const MAX_FALLING_ITEMS = 20` from the `FallingItems` component. -/
def MAX_FALLING_ITEMS : Nat := 20

/-- An entry of the `FallingItems` component's `itemsRef` loop: the
spread falling item plus its `originalId` and `animKey`. -/
structure ActiveItem where
  item : FallingItem
  originalId : Nat
  animKey : Nat
deriving DecidableEq, Repr

/-- JS `arr.slice(-n)` for `n > 0`: the last `n` elements (the whole
array when it is shorter than `n`). -/
def jsSliceLast (n : Nat) (l : List ActiveItem) : List ActiveItem :=
  l.drop (l.length - n)

/-- The map `newItems.map(item => ({...item, originalId: item.id,
animKey: ++animationKeyRef.current, ...}))`: assigns strictly
increasing anim keys from the mutable counter, returning the new
counter value. -/
def assignAnimKeys : Nat → List FallingItem → List ActiveItem × Nat
  | ctr, [] => ([], ctr)
  | ctr, it :: rest =>
      let tail := assignAnimKeys (ctr + 1) rest
      (⟨it, it.id, ctr + 1⟩ :: tail.1, tail.2)

/-- The `useEffect` body of `FallingItems` that merges a batch of items
arriving from the server into `itemsRef.current`: items already present
(by `originalId`) are filtered out, the rest get anim keys and are
appended, and only the last `MAX_FALLING_ITEMS` entries are kept via
`.slice(-MAX_FALLING_ITEMS)`. -/
def fallingItemsEffect (cur : List ActiveItem) (animCtr : Nat)
    (items : List FallingItem) : List ActiveItem × Nat :=
  if items.length = 0 then (cur, animCtr)
  else
    let newItems := items.filter
      (fun it => !(cur.any (fun e => e.originalId == it.id)))
    if newItems.length > 0 then
      let assigned := assignAnimKeys animCtr newItems
      (jsSliceLast MAX_FALLING_ITEMS (cur ++ assigned.1), assigned.2)
    else (cur, animCtr)

/-- The `ws.onmessage` handler of `connectWebSocket` in `App.jsx`,
with the result of `JSON.parse(event.data)` as input: a parse failure
is caught, logged and dropped.  The second component records whether
the handler closed the socket (it never does). -/
def wsOnMessage (parsed : Except String ServerMsg) (st : ClientState) :
    ClientState × Bool :=
  match parsed with
  | .error _ => (st, false)
  | .ok m => (handleServerMessage m st, false)

/-! ### Helper lemmas -/

lemma length_dropWhile_le (p : Char → Bool) (l : List Char) :
    (l.dropWhile p).length ≤ l.length := by
  induction l with
  | nil => simp
  | cons a l ih =>
    by_cases h : p a = true
    · rw [List.dropWhile_cons_of_pos h]
      exact Nat.le_succ_of_le ih
    · rw [List.dropWhile_cons_of_neg h]

lemma jsTrim_length_le (s : List Char) : (jsTrim s).length ≤ s.length := by
  unfold jsTrim
  rw [List.length_reverse]
  calc ((s.dropWhile isJsWhitespace).reverse.dropWhile isJsWhitespace).length
      ≤ (s.dropWhile isJsWhitespace).reverse.length :=
        length_dropWhile_le _ _
    _ = (s.dropWhile isJsWhitespace).length := List.length_reverse _
    _ ≤ s.length := length_dropWhile_le _ _

lemma assignAnimKeys_fst_length (ctr : Nat) (l : List FallingItem) :
    ((assignAnimKeys ctr l).1).length = l.length := by
  induction l generalizing ctr with
  | nil => rfl
  | cons a l ih => simp [assignAnimKeys, ih]

lemma jsSliceLast_length (n : Nat) (l : List ActiveItem) :
    (jsSliceLast n l).length = min l.length n := by
  simp only [jsSliceLast, List.length_drop]
  omega

lemma jsSliceLast_suffix (n : Nat) (l : List ActiveItem) :
    jsSliceLast n l <:+ l :=
  List.drop_suffix _ _

/-! ### Claims -/

/-- **C1, counterexample.**  The claim says an `UPDATE_PIXEL` applied
to a non-null grid never changes the grid's length, even for payload
indices at or beyond the current length.  On a grid of length 2, the
assignment `newGrid[5] = color` extends the JS array: the length
becomes 6, not 2. -/
theorem C1_counterexample :
    gridLen (handleServerMessage (.updatePixel 5 "#FFFFFF")
      ⟨some [some "a", some "b"], none, 0, false, [], 0⟩) = some 6 ∧
    gridLen (⟨some [some "a", some "b"], none, 0, false, [], 0⟩ : ClientState)
      = some 2 := by
  constructor <;> rfl

/-- **C1, amended.**  For an `UPDATE_PIXEL` applied to a non-null grid,
the grid's length is preserved exactly when the payload index is below
the current length; an index at or beyond the current length instead
extends the grid to length `index + 1`. -/
theorem C1_update_pixel_length (st : ClientState) (g : List JsCell)
    (idx : Nat) (c : String) (hg : st.grid = some g) :
    (idx < g.length →
      gridLen (handleServerMessage (.updatePixel idx c) st) = gridLen st) ∧
    (g.length ≤ idx →
      gridLen (handleServerMessage (.updatePixel idx c) st)
        = some (idx + 1)) := by
  constructor
  · intro h
    simp [handleServerMessage, gridLen, jsSet, hg, h]
  · intro h
    have hnot : ¬ idx < g.length := by omega
    simp [handleServerMessage, gridLen, jsSet, hg, hnot]
    omega

/-- **C1, witness** for the amended theorem at a concrete state. -/
theorem C1_witness :
    gridLen (handleServerMessage (.updatePixel 1 "#FFFFFF")
        ⟨some [some "a", some "b"], none, 0, false, [], 0⟩)
      = gridLen (⟨some [some "a", some "b"], none, 0, false, [], 0⟩ :
          ClientState) :=
  (C1_update_pixel_length
    ⟨some [some "a", some "b"], none, 0, false, [], 0⟩
    [some "a", some "b"] 1 "#FFFFFF" rfl).1 (by decide)

/-- **C10.**  A `paintPixel` call whose index equals
`lastPaintedPixelRef` returns `false`, draws nothing, calls
`onPixelClick` on nothing, and leaves the ref unchanged — so a drag
never emits two consecutive paint requests for the same index. -/
theorem C10_no_consecutive_repaint (treeMask : Option (List Bool))
    (c : String) (px py : Int) (idx : Nat) :
    paintPixel treeMask (some idx) c px py idx
      = ⟨false, some idx, none, none⟩ := by
  unfold paintPixel
  by_cases h : jsMaskBlocks treeMask idx = true
  · simp [h]
  · simp [h]

/-- **C6.**  When `JSON.parse` fails on an inbound frame, the
`ws.onmessage` handler leaves the client state exactly as it was and
does not close the socket: the single frame is dropped. -/
theorem C6_parse_failure_drops_frame (e : String) (st : ClientState) :
    wsOnMessage (.error e) st = (st, false) := rfl

/-- **C4.**  At any index where the tree mask holds `false`, `sendPaint`
returns `false` and sends no frame (whatever the socket state and the
color), and `paintPixel` returns `false` with no optimistic draw and no
`onPixelClick` call — so such a call never mutates the grid. -/
theorem C4_mask_false_rejects (wsOpen : Bool) (mask : List Bool)
    (index : Nat) (color c : String) (lastPainted : Option Nat)
    (px py : Int) (h : mask.getD index false = false) :
    sendPaint wsOpen (some mask) index color = (false, none) ∧
    paintPixel (some mask) lastPainted c px py index
      = ⟨false, lastPainted, none, none⟩ := by
  have hblock : jsMaskBlocks (some mask) index = true := by
    show (!(mask.getD index false)) = true
    rw [h]
    rfl
  refine ⟨?_, ?_⟩
  · cases wsOpen <;> simp [sendPaint, hblock]
  · simp [paintPixel, hblock]

/-- **C4, witness** at mask `[false]`, index 0. -/
theorem C4_witness :
    sendPaint true (some [false]) 0 "#C41E3A" = (false, none) ∧
    paintPixel (some [false]) none "#C41E3A" 0 0 0
      = ⟨false, none, none, none⟩ :=
  C4_mask_false_rejects true [false] 0 "#C41E3A" "#C41E3A" none 0 0
    (by decide)

/-- **C7.**  `sendPaint` is a function of only the socket state, the
tree mask, the index and the color — it consults no timestamp or
cooldown state — so any two successive calls with an open socket and
mask-true indices both send a `PAINT` frame, regardless of the elapsed
time between them. -/
theorem C7_no_cooldown (mask : List Bool) (i1 i2 : Nat) (c1 c2 : String)
    (h1 : mask.getD i1 false = true) (h2 : mask.getD i2 false = true) :
    sendPaint true (some mask) i1 c1 = (true, some (.paint i1 c1)) ∧
    sendPaint true (some mask) i2 c2 = (true, some (.paint i2 c2)) := by
  have hb1 : jsMaskBlocks (some mask) i1 = false := by
    show (!(mask.getD i1 false)) = false
    rw [h1]
    rfl
  have hb2 : jsMaskBlocks (some mask) i2 = false := by
    show (!(mask.getD i2 false)) = false
    rw [h2]
    rfl
  constructor <;> simp [sendPaint, hb1, hb2]

/-- **C7, witness**: two immediate paints on mask `[true, true]`. -/
theorem C7_witness :
    sendPaint true (some [true, true]) 0 "#FFD700"
      = (true, some (.paint 0 "#FFD700")) ∧
    sendPaint true (some [true, true]) 1 "#228B22"
      = (true, some (.paint 1 "#228B22")) :=
  C7_no_cooldown [true, true] 0 1 "#FFD700" "#228B22" (by decide) (by decide)

/-- **C2, counterexample.**  The claim says every file of exactly
`100 * 1024` bytes is accepted, but `handleImageSelect` also checks the
MIME type: a 102400-byte file of type `text/plain` is rejected with the
not-an-image alert, not accepted. -/
theorem C2_counterexample :
    handleImageSelect (some ⟨100 * 1024, "text/plain"⟩)
        = .alertNotImage ∧
    handleImageSelect (some ⟨100 * 1024, "text/plain"⟩) ≠ .accepted := by
  constructor <;> decide

/-- **C2, amended.**  A file of exactly `100 * 1024` bytes whose MIME
type starts with `image/` is accepted (read into the image preview),
and any file whose size exceeds `100 * 1024` bytes is rejected with an
alert, so no preview is set and no `SEND_IMAGE` frame can result. -/
theorem C2_image_size_limit (f : JsFile) :
    (f.size = 100 * 1024 → jsStartsWith f.fileType "image/" = true →
      handleImageSelect (some f) = .accepted) ∧
    (f.size > 100 * 1024 → handleImageSelect (some f) = .alertTooBig) := by
  constructor
  · intro hsize htype
    simp [handleImageSelect, hsize, htype]
  · intro hsize
    simp [handleImageSelect, hsize]

/-- **C2, witness**: a 102400-byte PNG is accepted, a 102401-byte PNG
is rejected. -/
theorem C2_witness :
    handleImageSelect (some ⟨100 * 1024, "image/png"⟩) = .accepted ∧
    handleImageSelect (some ⟨100 * 1024 + 1, "image/png"⟩)
      = .alertTooBig :=
  ⟨(C2_image_size_limit ⟨100 * 1024, "image/png"⟩).1 rfl (by decide),
   (C2_image_size_limit ⟨100 * 1024 + 1, "image/png"⟩).2 (by decide)⟩

/-- **C3.**  Under the `maxLength={50}` cap on the text input, every
`SEND_MESSAGE` frame `handleSubmit` produces carries `text.trim()`, a
payload that is non-empty and at most 50 characters long. -/
theorem C3_message_bounds (text : List Char) (imagePreview : Option String)
    (t : List Char) (h50 : text.length ≤ 50)
    (hm : handleSubmit text imagePreview = .sendMessage t) :
    t ≠ [] ∧ t.length ≤ 50 := by
  cases imagePreview with
  | some img => simp [handleSubmit] at hm
  | none =>
    by_cases hne : jsTrim text = []
    · simp [handleSubmit, hne] at hm
    · simp [handleSubmit, hne] at hm
      subst hm
      exact ⟨hne, le_trans (jsTrim_length_le text) h50⟩

/-- **C3, witness**: submitting `" hello "` with no image preview. -/
theorem C3_witness :
    jsTrim " hello ".toList ≠ [] ∧ (jsTrim " hello ".toList).length ≤ 50 :=
  C3_message_bounds " hello ".toList none (jsTrim " hello ".toList)
    (by decide) (by decide)

/-- **C5.**  A canvas click whose computed index `y * GRID_WIDTH + x`
falls outside `[0, GRID_WIDTH * GRID_HEIGHT)` is ignored by
`handleCanvasClick` — no paint request, no emoji, no crash — and
`getPixelFromEvent` returns `null` for any pointer position outside the
`width × height` pixel range. -/
theorem C5_out_of_range_ignored (grid : Option (List JsCell))
    (treeMask : Option (List Bool)) (isEmojiMode : Bool)
    (se sc : String) (x y : Int) (w h : Nat) (px py : Int)
    (hidx : y * (GRID_WIDTH : Int) + x < 0 ∨
      (GRID_WIDTH : Int) * (GRID_HEIGHT : Int) ≤ y * (GRID_WIDTH : Int) + x)
    (hp : ¬ (0 ≤ px ∧ px < (w : Int) ∧ 0 ≤ py ∧ py < (h : Int))) :
    handleCanvasClick grid treeMask isEmojiMode se sc x y = .ignore ∧
    getPixelFromEvent w h px py = none := by
  constructor
  · have hcond : ¬ (0 ≤ y * (GRID_WIDTH : Int) + x ∧
        y * (GRID_WIDTH : Int) + x < (GRID_WIDTH : Int) * (GRID_HEIGHT : Int)) := by
      simp only [GRID_WIDTH, GRID_HEIGHT] at hidx ⊢
      omega
    cases grid with
    | none => rfl
    | some g => simp [handleCanvasClick, hcond]
  · simp [getPixelFromEvent, hp]

/-- **C5, witness**: a click at `(x, y) = (200, 200)` (index 20200) is
ignored, and a pointer at `(-1, 0)` yields no pixel. -/
theorem C5_witness :
    handleCanvasClick (some []) none false "⭐" "#C41E3A" 200 200
        = .ignore ∧
    getPixelFromEvent 100 150 (-1) 0 = none :=
  C5_out_of_range_ignored (some []) none false "⭐" "#C41E3A" 200 200
    100 150 (-1) 0 (by decide) (by decide)

/-- **C8.**  The `FallingItems` merge effect keeps the active list at
no more than `MAX_FALLING_ITEMS = 20` entries: for every batch of items
from the server, the merged list is a suffix of the old list followed
by the newly assigned items (so only the most recent entries are
retained and older ones discarded), its length never exceeds 20, and
when new items arrive it holds exactly the last
`min (cur.length + newItems.length) 20` entries. -/
theorem C8_max_falling_items (cur : List ActiveItem) (animCtr : Nat)
    (items : List FallingItem) (h : cur.length ≤ MAX_FALLING_ITEMS) :
    (fallingItemsEffect cur animCtr items).1.length ≤ MAX_FALLING_ITEMS ∧
    (fallingItemsEffect cur animCtr items).1 <:+
      cur ++ (assignAnimKeys animCtr (items.filter
        (fun it => !(cur.any (fun e => e.originalId == it.id))))).1 ∧
    (0 < (items.filter
        (fun it => !(cur.any (fun e => e.originalId == it.id)))).length →
      (fallingItemsEffect cur animCtr items).1.length
        = min (cur.length + (items.filter
            (fun it => !(cur.any (fun e => e.originalId == it.id)))).length)
          MAX_FALLING_ITEMS) := by
  unfold fallingItemsEffect
  by_cases h0 : items.length = 0
  · have hitems : items = [] := List.length_eq_zero.mp h0
    subst hitems
    simp only [if_pos rfl]
    refine ⟨h, ?_, ?_⟩
    · simp [assignAnimKeys]
    · intro hlt
      simp at hlt
  · simp only [if_neg h0]
    by_cases h1 : 0 < (items.filter
        (fun it => !(cur.any (fun e => e.originalId == it.id)))).length
    · simp only [if_pos h1]
      refine ⟨?_, ?_, ?_⟩
      · rw [jsSliceLast_length]
        omega
      · exact (jsSliceLast_suffix _ _)
      · intro _
        rw [jsSliceLast_length, List.length_append, assignAnimKeys_fst_length]
    · simp only [if_neg h1]
      refine ⟨h, ?_, fun hlt => absurd hlt h1⟩
      have hnil : (items.filter
          (fun it => !(cur.any (fun e => e.originalId == it.id)))) = [] := by
        cases hfe : (items.filter
            (fun it => !(cur.any (fun e => e.originalId == it.id)))) with
        | nil => rfl
        | cons a l => rw [hfe] at h1; simp at h1
      rw [hnil]
      simp [assignAnimKeys]

/-- **C8, witness**: merging one fresh item into an empty active list. -/
theorem C8_witness :
    (fallingItemsEffect [] 0 [⟨1, "text", "hi", 0⟩]).1.length
        ≤ MAX_FALLING_ITEMS ∧
    (fallingItemsEffect [] 0 [⟨1, "text", "hi", 0⟩]).1 <:+
      [] ++ (assignAnimKeys 0 ([⟨1, "text", "hi", 0⟩].filter
        (fun it => !(([] : List ActiveItem).any
          (fun e => e.originalId == it.id))))).1 ∧
    (0 < ([(⟨1, "text", "hi", 0⟩ : FallingItem)].filter
        (fun it => !(([] : List ActiveItem).any
          (fun e => e.originalId == it.id)))).length →
      (fallingItemsEffect [] 0 [⟨1, "text", "hi", 0⟩]).1.length
        = min (([] : List ActiveItem).length
            + ([(⟨1, "text", "hi", 0⟩ : FallingItem)].filter
              (fun it => !(([] : List ActiveItem).any
                (fun e => e.originalId == it.id)))).length)
          MAX_FALLING_ITEMS) :=
  C8_max_falling_items [] 0 [⟨1, "text", "hi", 0⟩] (by decide)

/-- **C9.**  Under the invariant that every stored falling item's id is
at most the current `itemIdRef`, `addFallingItem` appends exactly one
item, carrying the fresh id `itemIdRef + 1`, which is strictly greater
than every previously assigned id; and the delayed removal of that id
removes exactly the appended item, leaving every other item in place. -/
theorem C9_falling_item_lifecycle (t c : String) (x : XPos)
    (st : ClientState)
    (h : ∀ i ∈ st.fallingItems, i.id ≤ st.itemIdRef) :
    (addFallingItem t c x st).fallingItems
      = st.fallingItems ++ [⟨st.itemIdRef + 1, t, c, x⟩] ∧
    (addFallingItem t c x st).itemIdRef = st.itemIdRef + 1 ∧
    (∀ i ∈ st.fallingItems, i.id < st.itemIdRef + 1) ∧
    (removeFallingItem (st.itemIdRef + 1)
        (addFallingItem t c x st)).fallingItems = st.fallingItems := by
  refine ⟨rfl, rfl, ?_, ?_⟩
  · intro i hi
    exact Nat.lt_succ_of_le (h i hi)
  · simp only [removeFallingItem, addFallingItem]
    rw [List.filter_append]
    have hall : ∀ a ∈ st.fallingItems,
        (fun i => decide (i.id ≠ st.itemIdRef + 1)) a = true := by
      intro a ha
      simp only [decide_eq_true_eq]
      have := h a ha
      omega
    rw [List.filter_eq_self.mpr hall]
    simp

/-- **C9, witness** at a one-item state with counter 1. -/
theorem C9_witness :
    (addFallingItem "text" "b" 0
        ⟨none, none, 0, true, [⟨1, "text", "a", 0⟩], 1⟩).fallingItems
      = [⟨1, "text", "a", 0⟩] ++ [⟨2, "text", "b", 0⟩] ∧
    (addFallingItem "text" "b" 0
        ⟨none, none, 0, true, [⟨1, "text", "a", 0⟩], 1⟩).itemIdRef = 2 ∧
    (∀ i ∈ [(⟨1, "text", "a", 0⟩ : FallingItem)], i.id < 2) ∧
    (removeFallingItem 2 (addFallingItem "text" "b" 0
        ⟨none, none, 0, true, [⟨1, "text", "a", 0⟩], 1⟩)).fallingItems
      = [⟨1, "text", "a", 0⟩] :=
  C9_falling_item_lifecycle "text" "b" 0
    ⟨none, none, 0, true, [⟨1, "text", "a", 0⟩], 1⟩ (by decide)

end PixelTree
